import Mathlib

/-
  Verification of the mapped-window abstraction (`CosmicMapped`) of
  cosmic-comp, shallowly embedded from `src/shell/element/mod.rs`.

  The constituent shapes `CosmicWindow` (module `window`) and `CosmicStack`
  (module `stack`) are declared in sibling files that are not part of the
  sources at hand; their data layout and accessors are modelled from the
  specification, section 3: a Single owns exactly one Toplevel plus an
  optional decoration header, a Stack owns an ordered non-empty sequence of
  Toplevels with one designated active tab plus a shared header.

  Machine integers: all sizes are `i32` values combined only with `min`/`max`,
  which cannot overflow, so they are modelled as `Int`.  Pointer locations are
  `f64` pairs that this file only stores and returns (no arithmetic is ever
  performed on them), so their carrier is modelled as a pair of `Int`.
-/

namespace CosmicComp

/-- `Size<i32, Logical>`: a width/height pair. -/
structure Size where
  w : Int
  h : Int
  deriving DecidableEq, Repr

/-- `Point<f64, Logical>`: a pointer location.  Only stored and looked up by
this module, never computed with, so the coordinate carrier is `Int`. -/
structure PointF where
  x : Int
  y : Int
  deriving DecidableEq, Repr

/-- The xdg_toplevel state set of one configuration: which of the protocol
flags `{Resizing, Fullscreen, Maximized, Activated, TiledLeft, TiledRight,
TiledTop, TiledBottom}` are present. -/
structure XdgStates where
  resizing : Bool
  fullscreen : Bool
  maximized : Bool
  activated : Bool
  tiledLeft : Bool
  tiledRight : Bool
  tiledTop : Bool
  tiledBottom : Bool
  deriving DecidableEq, Repr

/-- The empty state set (no protocol flag present). -/
def XdgStates.none : XdgStates :=
  ⟨false, false, false, false, false, false, false, false⟩

/-- Modelled from the spec: the external Toplevel collaborator (section 6).
It exposes a `current` (acknowledged) and a `pending` (requested) state set,
the declared minimum/maximum content size attributes
(`XdgToplevelSurfaceRoleAttributes.min_size` / `max_size`), and its top-level
`WlSurface`, identified here by a `Nat`.  For the containment checks of
`has_surface`, the surface subtree below the top-level surface and the set of
popup surfaces registered for it (both external registries walked by
`with_surface_tree_downward` and `PopupManager::popups_for_surface`) are
recorded as lists of surface ids. -/
structure Toplevel where
  surface : Nat
  current : XdgStates
  pending : XdgStates
  min_size : Size
  max_size : Size
  subsurfaces : List Nat
  popups : List Nat
  deriving DecidableEq, Repr

/-- The surfaces visited by `with_surface_tree_downward` rooted at this
toplevel's surface: the root itself followed by its subsurfaces. -/
def Toplevel.surfaceTree (t : Toplevel) : List Nat :=
  t.surface :: t.subsurfaces

/-- Modelled from the spec (section 3): `CosmicWindow` — the sole Toplevel
plus an optional decoration header, kept as its height in logical pixels. -/
structure CosmicWindow where
  window : Toplevel
  header : Option Nat
  deriving DecidableEq, Repr

/-- Modelled from the spec (section 3): `CosmicStack` — the ordered tabs, the
index of the designated active tab, and the shared optional header.  The
non-emptiness invariant is not baked into the type; operations that would
panic on an empty stack return `Option.none` instead. -/
structure CosmicStack where
  tabs : List Toplevel
  active_idx : Nat
  header : Option Nat
  deriving DecidableEq, Repr

/-- Modelled from the spec: `CosmicStack::windows()` enumerates the tabs in
order. -/
def CosmicStack.windows (s : CosmicStack) : List Toplevel :=
  s.tabs

/-- Modelled from the spec: `CosmicStack::active()` returns the designated
active tab; `Option.none` models the panic on an invalid index. -/
def CosmicStack.active (s : CosmicStack) : Option Toplevel :=
  s.tabs[s.active_idx]?

/-- The `space_elements!` sum type `CosmicMappedInternal`.  The macro also
generates a phantom catch-all variant that is never constructed (every
`_ => unreachable!()` arm in the source refers to it); being uninhabited in
practice, it is not modelled. -/
inductive CosmicMappedInternal where
  | Window : CosmicWindow → CosmicMappedInternal
  | Stack : CosmicStack → CosmicMappedInternal
  deriving DecidableEq, Repr

/-- The per-seat cursor map `HashMap<usize, Point<f64, Logical>>`, modelled
extensionally as a lookup function from seat ids. -/
def CursorMap : Type := Nat → Option PointF

/-- The empty cursor map. -/
def CursorMap.empty : CursorMap := fun _ => Option.none

/-- `HashMap::insert`: replace the entry of seat `k` by `v`. -/
def CursorMap.insert (m : CursorMap) (k : Nat) (v : PointF) : CursorMap :=
  fun k2 => if k2 = k then some v else m k2

/-- `HashMap::remove`: drop the entry of seat `k`. -/
def CursorMap.remove (m : CursorMap) (k : Nat) : CursorMap :=
  fun k2 => if k2 = k then Option.none else m k2

/-- `HashMap::get`. -/
def CursorMap.get (m : CursorMap) (k : Nat) : Option PointF := m k

/-- `CosmicMapped`: the tagged element plus the per-seat cursor map.  The
remaining auxiliary fields of the source struct (`tiling_node_id`,
`last_geometry`, `resize_state`, `debug`) are bookkeeping storage mutated
only by layout-engine collaborators; no operation verified here reads or
writes them, so they are omitted. -/
structure CosmicMapped where
  element : CosmicMappedInternal
  last_cursor_position : CursorMap

/-- `From<CosmicWindow> for CosmicMapped`: auxiliary fields start empty. -/
def CosmicMapped.ofWindow (w : CosmicWindow) : CosmicMapped :=
  { element := CosmicMappedInternal.Window w
    last_cursor_position := CursorMap.empty }

/-- `From<CosmicStack> for CosmicMapped`: auxiliary fields start empty. -/
def CosmicMapped.ofStack (s : CosmicStack) : CosmicMapped :=
  { element := CosmicMappedInternal.Stack s
    last_cursor_position := CursorMap.empty }

/-- The local offset `(0, header.height())` (or `(0, 0)` without header)
applied to every constituent in `windows()`. -/
def headerOffset (hdr : Option Nat) : Int × Int :=
  (0, (hdr.getD 0 : Nat))

/-- `CosmicMapped::windows()`: every constituent window paired with its local
offset — for Stack every tab offset by the shared header height, for Single
the sole window similarly offset. -/
def CosmicMapped.windows (m : CosmicMapped) : List (Toplevel × (Int × Int)) :=
  match m.element with
  | CosmicMappedInternal.Stack stack =>
      stack.windows.map (fun w => (w, headerOffset stack.header))
  | CosmicMappedInternal.Window window =>
      [(window.window, headerOffset window.header)]

/-- `CosmicMapped::active_window()`: the Stack's active tab or the Single's
sole window; `Option.none` models the `unreachable!`/panic cases. -/
def CosmicMapped.active_window (m : CosmicMapped) : Option Toplevel :=
  match m.element with
  | CosmicMappedInternal.Stack stack => stack.active
  | CosmicMappedInternal.Window win => some win.window

/-- `CosmicMapped::cursor_position(seat)`. -/
def CosmicMapped.cursor_position (m : CosmicMapped) (seat : Nat) : Option PointF :=
  m.last_cursor_position.get seat

/-- The component-wise maximum used to fold minimum sizes:
`(min1.w.max(min2.w), min1.h.max(min2.h))`. -/
def sizeMax (a b : Size) : Size :=
  ⟨max a.w b.w, max a.h b.h⟩

/-- The fold of the Stack arm of `min_size`: per-tab declared minimums
combined with a component-wise maximum, accumulator starting at `None`. -/
def stackMinFold (tabs : List Toplevel) : Option Size :=
  tabs.foldl
    (fun min_size window =>
      match min_size, window.min_size with
      | Option.none, x => some x
      | some min1, min2 => some (sizeMax min1 min2))
    Option.none

/-- `CosmicMapped::min_size()`.  `Option.none` models the
`expect("Empty stack?")` panic on an empty stack. -/
def CosmicMapped.min_size (m : CosmicMapped) : Option Size :=
  match m.element with
  | CosmicMappedInternal.Stack stack => stackMinFold stack.windows
  | CosmicMappedInternal.Window window => some window.window.min_size

/-- The per-axis combination of two declared maxima in the Stack arm of
`max_size`: `0` on an axis means unconstrained for that tab and is excluded
from the minimum. -/
def maxCombine (max1 max2 : Size) : Size :=
  ⟨if max1.w = 0 then max2.w else if max2.w = 0 then max1.w else min max1.w max2.w,
   if max1.h = 0 then max2.h else if max2.h = 0 then max1.h else min max1.h max2.h⟩

/-- The fold of the Stack arm of `max_size` (`theoretical_max`): per-tab
declared maximums combined by `maxCombine`, accumulator starting at `None`. -/
def stackMaxFold (tabs : List Toplevel) : Option Size :=
  tabs.foldl
    (fun max_size window =>
      match max_size, window.max_size with
      | Option.none, x => some x
      | some max1, max2 => some (maxCombine max1 max2))
    Option.none

/-- `CosmicMapped::max_size()`: for Stack, the `theoretical_max` fold clamped
up, per axis, to `min_size()`; for Single, the declared maximum verbatim.
`Option.none` models the panic that `self.min_size()` raises on an empty
stack before the final match is reached. -/
def CosmicMapped.max_size (m : CosmicMapped) : Option Size :=
  match m.element with
  | CosmicMappedInternal.Stack stack =>
      let theoretical_max := stackMaxFold stack.windows
      (CosmicMapped.min_size m).map
        (fun mn =>
          match theoretical_max with
          | Option.none => ⟨0, 0⟩
          | some mx => ⟨max mx.w mn.w, max mx.h mn.h⟩)
  | CosmicMappedInternal.Window window => some window.window.max_size

/-- The iteration shared by every `set_X`: apply `f` to each constituent
Toplevel (all tabs of a Stack, the sole window of a Single), in place. -/
def CosmicMappedInternal.mapToplevels (e : CosmicMappedInternal) (f : Toplevel → Toplevel) :
    CosmicMappedInternal :=
  match e with
  | CosmicMappedInternal.Stack s => CosmicMappedInternal.Stack { s with tabs := s.tabs.map f }
  | CosmicMappedInternal.Window w => CosmicMappedInternal.Window { w with window := f w.window }

/-- `CosmicMapped::set_resizing`: for every constituent window, set or unset
`XdgState::Resizing` in the pending state. -/
def CosmicMapped.set_resizing (m : CosmicMapped) (resizing : Bool) : CosmicMapped :=
  { m with
    element := m.element.mapToplevels (fun t =>
      { t with pending :=
          if resizing then { t.pending with resizing := true }
          else { t.pending with resizing := false } }) }

/-- `CosmicMapped::is_resizing`: the active window's current state contains
`Resizing`, or its pending state does. -/
def CosmicMapped.is_resizing (m : CosmicMapped) : Option Bool :=
  m.active_window.map (fun w => w.current.resizing || w.pending.resizing)

/-- `CosmicMapped::set_fullscreen`. -/
def CosmicMapped.set_fullscreen (m : CosmicMapped) (fullscreen : Bool) : CosmicMapped :=
  { m with
    element := m.element.mapToplevels (fun t =>
      { t with pending :=
          if fullscreen then { t.pending with fullscreen := true }
          else { t.pending with fullscreen := false } }) }

/-- `CosmicMapped::is_fullscreen`. -/
def CosmicMapped.is_fullscreen (m : CosmicMapped) : Option Bool :=
  m.active_window.map (fun w => w.current.fullscreen || w.pending.fullscreen)

/-- `CosmicMapped::set_maximized`. -/
def CosmicMapped.set_maximized (m : CosmicMapped) (maximized : Bool) : CosmicMapped :=
  { m with
    element := m.element.mapToplevels (fun t =>
      { t with pending :=
          if maximized then { t.pending with maximized := true }
          else { t.pending with maximized := false } }) }

/-- `CosmicMapped::is_maximized`. -/
def CosmicMapped.is_maximized (m : CosmicMapped) : Option Bool :=
  m.active_window.map (fun w => w.current.maximized || w.pending.maximized)

/-- `CosmicMapped::set_activated`. -/
def CosmicMapped.set_activated (m : CosmicMapped) (activated : Bool) : CosmicMapped :=
  { m with
    element := m.element.mapToplevels (fun t =>
      { t with pending :=
          if activated then { t.pending with activated := true }
          else { t.pending with activated := false } }) }

/-- `CosmicMapped::is_activated`. -/
def CosmicMapped.is_activated (m : CosmicMapped) : Option Bool :=
  m.active_window.map (fun w => w.current.activated || w.pending.activated)

/-- `CosmicMapped::set_tiled`: the Stack arm iterates over `None` (the tiled
state of stack windows is used to drop decorations anyway), so a Stack is
left untouched; the Single arm sets or unsets all four pending tiled flags of
the sole window. -/
def CosmicMapped.set_tiled (m : CosmicMapped) (tiled : Bool) : CosmicMapped :=
  match m.element with
  | CosmicMappedInternal.Stack _ => m
  | CosmicMappedInternal.Window w =>
      { m with
        element := CosmicMappedInternal.Window
          { w with window :=
              { w.window with pending :=
                  if tiled then
                    { w.window.pending with
                      tiledLeft := true, tiledRight := true,
                      tiledTop := true, tiledBottom := true }
                  else
                    { w.window.pending with
                      tiledLeft := false, tiledRight := false,
                      tiledTop := false, tiledBottom := false } } } }

/-- `CosmicMapped::is_tiled`: the active window's current state contains
`TiledLeft`. -/
def CosmicMapped.is_tiled (m : CosmicMapped) : Option Bool :=
  m.active_window.map (fun w => w.current.tiledLeft)

/-- The `WindowSurfaceType` bitflags: which kinds of surface to match. -/
structure WindowSurfaceType where
  toplevel : Bool
  subsurface : Bool
  popup : Bool
  deriving DecidableEq, Repr

/-- `CosmicMapped::has_surface(surface, surface_type)`: some constituent
window matches the queried surface — by exact top-level surface when the kind
contains TOPLEVEL, by the downward surface-tree traversal when it contains
SUBSURFACE, or by the popup registry when it contains POPUP. -/
def CosmicMapped.has_surface (m : CosmicMapped) (surface : Nat)
    (surface_type : WindowSurfaceType) : Bool :=
  m.windows.any (fun p =>
    let toplevel := p.1.surface
    (surface_type.toplevel && decide (toplevel = surface))
    || (surface_type.subsurface && decide (surface ∈ p.1.surfaceTree))
    || (surface_type.popup && decide (surface ∈ p.1.popups)))

/-- `CosmicMapped::send_close()`: issue the protocol close request on the
active window's toplevel.  The result pairs the single toplevel that receives
the request with the (unchanged) mapped window; `Option.none` models the
panic on an invalid stack. -/
def CosmicMapped.send_close (m : CosmicMapped) : Option (Toplevel × CosmicMapped) :=
  m.active_window.map (fun window => (window, m))

/-- The pointer events delivered to `impl PointerTarget for CosmicMapped`,
with the seat reduced to its id and, for enter/motion, the event location. -/
inductive PointerEvent where
  | enter (seat : Nat) (location : PointF)
  | motion (seat : Nat) (location : PointF)
  | button (seat : Nat)
  | axis (seat : Nat)
  | leave (seat : Nat)
  deriving DecidableEq, Repr

/-- The seat an event belongs to. -/
def PointerEvent.seat : PointerEvent → Nat
  | PointerEvent.enter s _ => s
  | PointerEvent.motion s _ => s
  | PointerEvent.button s => s
  | PointerEvent.axis s => s
  | PointerEvent.leave s => s

/-- One pointer event's effect on the mapped window: `enter`/`motion` insert
the seat's location into the cursor map before forwarding, `leave` removes
the seat's entry before forwarding, `button`/`axis` forward without touching
the map.  Forwarding targets the constituent element, which has no access to
the cursor map, so only the map changes here. -/
def CosmicMapped.pointerStep (m : CosmicMapped) (e : PointerEvent) : CosmicMapped :=
  match e with
  | PointerEvent.enter seat location =>
      { m with last_cursor_position := m.last_cursor_position.insert seat location }
  | PointerEvent.motion seat location =>
      { m with last_cursor_position := m.last_cursor_position.insert seat location }
  | PointerEvent.button _ => m
  | PointerEvent.axis _ => m
  | PointerEvent.leave seat =>
      { m with last_cursor_position := m.last_cursor_position.remove seat }

/-- Deliver a sequence of pointer events in order. -/
def CosmicMapped.pointerRun (m : CosmicMapped) (events : List PointerEvent) : CosmicMapped :=
  events.foldl CosmicMapped.pointerStep m

/-- The specification's reading of the cursor map: starting from `init`,
the entry of seat `S` after a sequence of events is the location of the last
enter/motion for `S` not followed by a leave for `S`; events of other seats
and button/axis events do not affect it. -/
def trackedFrom (S : Nat) (init : Option PointF) (events : List PointerEvent) : Option PointF :=
  events.foldl
    (fun acc e =>
      match e with
      | PointerEvent.enter s location => if s = S then some location else acc
      | PointerEvent.motion s location => if s = S then some location else acc
      | PointerEvent.button _ => acc
      | PointerEvent.axis _ => acc
      | PointerEvent.leave s => if s = S then Option.none else acc)
    init

/-- The specification's cursor-map contents for seat `S` after a sequence of
events delivered to a freshly tracked window. -/
def trackedPosition (S : Nat) (events : List PointerEvent) : Option PointF :=
  trackedFrom S Option.none events

/-- The claim comparison `max_size() ≥ min_size()` component-wise, as a
Boolean over the two Option results (vacuously true when either side is the
panic case). -/
def maxGeMinB (m : CosmicMapped) : Bool :=
  match m.min_size, m.max_size with
  | some mn, some mx => decide (mn.w ≤ mx.w) && decide (mn.h ≤ mx.h)
  | _, _ => true

/-- The specification's words for the Stack arm of `min_size`: fold the
per-tab declared minimums of a non-empty tab list with the component-wise
maximum. -/
def specStackMinSize (t : Toplevel) (ts : List Toplevel) : Size :=
  ts.foldl (fun acc w => sizeMax acc w.min_size) t.min_size

/-- A toplevel with no declared constraints, no protocol state, and no
attached surfaces, used as the base of concrete instances. -/
def plainTop (surf : Nat) : Toplevel :=
  { surface := surf, current := XdgStates.none, pending := XdgStates.none,
    min_size := ⟨0, 0⟩, max_size := ⟨0, 0⟩, subsurfaces := [], popups := [] }

/-- Tab A of specification Example A: min (100,50), max (0,0). -/
def exTabA : Toplevel := { plainTop 10 with min_size := ⟨100, 50⟩, max_size := ⟨0, 0⟩ }

/-- Tab B of specification Example A: min (150,40), max (300,300). -/
def exTabB : Toplevel := { plainTop 11 with min_size := ⟨150, 40⟩, max_size := ⟨300, 300⟩ }

/-- The two-tab stack of specification Example A. -/
def exStackAB : CosmicStack := ⟨[exTabA, exTabB], 0, Option.none⟩

/-- First tab of a three-tab stack. -/
def exTab1 : Toplevel := plainTop 21

/-- Second (active) tab of a three-tab stack. -/
def exTab2 : Toplevel := plainTop 22

/-- Third tab of a three-tab stack. -/
def exTab3 : Toplevel := plainTop 23

/-- A three-tab stack whose active tab is the second one. -/
def exStack3 : CosmicStack := ⟨[exTab1, exTab2, exTab3], 1, Option.none⟩

/-- A plain single window. -/
def exWindow : CosmicWindow := ⟨plainTop 30, Option.none⟩

/-- A single window declaring min (120,80) and the unconstrained max (0,0). -/
def exZeroMaxWindow : CosmicWindow := ⟨{ plainTop 31 with min_size := ⟨120, 80⟩ }, Option.none⟩

/-- A single window whose surface 1 has one subsurface, with id 2. -/
def exSubWin : CosmicWindow := ⟨{ plainTop 1 with subsurfaces := [2] }, Option.none⟩

/-- A short pointer-event script: seat 1 enters and moves, presses a button,
then seat 2 (which never entered) leaves. -/
def exEvents : List PointerEvent :=
  [PointerEvent.enter 1 ⟨3, 4⟩, PointerEvent.motion 1 ⟨5, 6⟩,
   PointerEvent.button 1, PointerEvent.leave 2]

/-
  Helper lemmas.
-/

/-- Once the accumulator of the `min_size` fold is `some`, the fold is the
plain component-wise-maximum fold. -/
theorem minFold_from_some (ts : List Toplevel) (a : Size) :
    List.foldl
      (fun min_size window =>
        match min_size, window.min_size with
        | Option.none, x => some x
        | some min1, min2 => some (sizeMax min1 min2))
      (some a) ts
      = some (List.foldl (fun acc w => sizeMax acc w.min_size) a ts) := by
  induction ts generalizing a with
  | nil => rfl
  | cons t ts ih => exact ih (sizeMax a t.min_size)

/-- The `min_size` fold of a non-empty tab list. -/
theorem stackMinFold_cons (t : Toplevel) (ts : List Toplevel) :
    stackMinFold (t :: ts) = some (specStackMinSize t ts) :=
  minFold_from_some ts t.min_size

/-- Once the accumulator of the `max_size` fold is `some`, the fold is the
plain `maxCombine` fold. -/
theorem maxFold_from_some (ts : List Toplevel) (a : Size) :
    List.foldl
      (fun max_size window =>
        match max_size, window.max_size with
        | Option.none, x => some x
        | some max1, max2 => some (maxCombine max1 max2))
      (some a) ts
      = some (List.foldl (fun acc w => maxCombine acc w.max_size) a ts) := by
  induction ts generalizing a with
  | nil => rfl
  | cons t ts ih => exact ih (maxCombine a t.max_size)

/-- The `max_size` fold (`theoretical_max`) of a non-empty tab list. -/
theorem stackMaxFold_cons (t : Toplevel) (ts : List Toplevel) :
    stackMaxFold (t :: ts)
      = some (ts.foldl (fun acc w => maxCombine acc w.max_size) t.max_size) :=
  maxFold_from_some ts t.max_size

/-- Mapping every constituent toplevel maps each entry of `windows()` and
keeps the offsets. -/
theorem windows_mapToplevels (m : CosmicMapped) (f : Toplevel → Toplevel) :
    ({ m with element := m.element.mapToplevels f } : CosmicMapped).windows
      = m.windows.map (fun p => (f p.1, p.2)) := by
  cases m with
  | mk e cm =>
      cases e with
      | Window w => rfl
      | Stack s =>
          simp only [CosmicMapped.windows, CosmicMappedInternal.mapToplevels,
            CosmicStack.windows, List.map_map]
          rfl

/-- Mapping every constituent toplevel maps the active window. -/
theorem active_mapToplevels (m : CosmicMapped) (f : Toplevel → Toplevel) :
    ({ m with element := m.element.mapToplevels f } : CosmicMapped).active_window
      = m.active_window.map f := by
  cases m with
  | mk e cm =>
      cases e with
      | Window w => rfl
      | Stack s =>
          simp only [CosmicMapped.active_window, CosmicMappedInternal.mapToplevels,
            CosmicStack.active, List.getElem?_map]

/-- If `f` forces the observation `g` to the value `b` on every toplevel,
then after mapping `f` over the constituents every entry of `windows()`
observes `b`. -/
theorem windows_flag_of_map (m : CosmicMapped) (f : Toplevel → Toplevel)
    (g : Toplevel → Bool) (b : Bool) (hg : ∀ t, g (f t) = b) :
    ({ m with element := m.element.mapToplevels f } : CosmicMapped).windows.map
        (fun p => g p.1)
      = m.windows.map (fun _ => b) := by
  rw [windows_mapToplevels, List.map_map]
  exact List.map_congr_left (fun p _ => hg p.1)

/-- If `f` forces the observation `g` to `true` on every toplevel, then after
mapping `f` over the constituents the active window (when it exists)
observes `true`. -/
theorem active_obs_of_map (m : CosmicMapped) (f : Toplevel → Toplevel)
    (g : Toplevel → Bool) (hg : ∀ t, g (f t) = true)
    (h : m.active_window.isSome = true) :
    ({ m with element := m.element.mapToplevels f } : CosmicMapped).active_window.map g
      = some true := by
  rw [active_mapToplevels, Option.map_map]
  obtain ⟨w, hw⟩ := Option.isSome_iff_exists.mp h
  rw [hw]
  simp [Function.comp, hg]

/-- One pointer event's effect on the tracked entry of seat `S`. -/
theorem pointerStep_cursor (m : CosmicMapped) (e : PointerEvent) (S : Nat) :
    (m.pointerStep e).cursor_position S =
      match e with
      | PointerEvent.enter s location =>
          if s = S then some location else m.cursor_position S
      | PointerEvent.motion s location =>
          if s = S then some location else m.cursor_position S
      | PointerEvent.button _ => m.cursor_position S
      | PointerEvent.axis _ => m.cursor_position S
      | PointerEvent.leave s =>
          if s = S then Option.none else m.cursor_position S := by
  cases e with
  | enter s location =>
      by_cases hs : s = S
      · subst hs
        simp [CosmicMapped.pointerStep, CosmicMapped.cursor_position,
          CursorMap.insert, CursorMap.get]
      · simp [CosmicMapped.pointerStep, CosmicMapped.cursor_position,
          CursorMap.insert, CursorMap.get, hs, Ne.symm hs]
  | motion s location =>
      by_cases hs : s = S
      · subst hs
        simp [CosmicMapped.pointerStep, CosmicMapped.cursor_position,
          CursorMap.insert, CursorMap.get]
      · simp [CosmicMapped.pointerStep, CosmicMapped.cursor_position,
          CursorMap.insert, CursorMap.get, hs, Ne.symm hs]
  | button s => rfl
  | axis s => rfl
  | leave s =>
      by_cases hs : s = S
      · subst hs
        simp [CosmicMapped.pointerStep, CosmicMapped.cursor_position,
          CursorMap.remove, CursorMap.get]
      · simp [CosmicMapped.pointerStep, CosmicMapped.cursor_position,
          CursorMap.remove, CursorMap.get, hs, Ne.symm hs]

/-- Delivering a sequence of pointer events updates the tracked entry of any
seat `S` exactly as the specification's fold does. -/
theorem pointerRun_tracked (events : List PointerEvent) (m : CosmicMapped) (S : Nat) :
    (m.pointerRun events).cursor_position S
      = trackedFrom S (m.cursor_position S) events := by
  induction events generalizing m with
  | nil => rfl
  | cons e es ih =>
      show (CosmicMapped.pointerRun (m.pointerStep e) es).cursor_position S = _
      rw [ih (m.pointerStep e), pointerStep_cursor]
      cases e <;> rfl

/-
  Claim theorems.
-/

/-- Claim C1, counterexample: for a Single window declaring min (120,80) and
the unconstrained max (0,0), `max_size()` is component-wise strictly below
`min_size()`, so the claimed inequality fails on a mapped Single window. -/
theorem c1_counterexample :
    maxGeMinB (CosmicMapped.ofWindow exZeroMaxWindow) = false
      ∧ (CosmicMapped.ofWindow exZeroMaxWindow).min_size = some ⟨120, 80⟩
      ∧ (CosmicMapped.ofWindow exZeroMaxWindow).max_size = some ⟨0, 0⟩ := by
  decide

/-- Claim C1 (amended to Stack windows): for every mapped Stack with a
non-empty tab list, whatever the mix of declared per-tab maxima (zero values
included), `max_size()` is component-wise greater than or equal to
`min_size()`.  For a Single window the declared maximum is passed through
verbatim and can lie below `min_size()`. -/
theorem c1_stack_max_ge_min (s : CosmicStack) (t : Toplevel) (ts : List Toplevel)
    (h : s.tabs = t :: ts) :
    ∃ mn mx : Size,
      (CosmicMapped.ofStack s).min_size = some mn
        ∧ (CosmicMapped.ofStack s).max_size = some mx
        ∧ mn.w ≤ mx.w ∧ mn.h ≤ mx.h := by
  have hmn : stackMinFold s.tabs = some (specStackMinSize t ts) := by
    rw [h]; exact stackMinFold_cons t ts
  have htm : stackMaxFold s.tabs
      = some (ts.foldl (fun acc w => maxCombine acc w.max_size) t.max_size) := by
    rw [h]; exact stackMaxFold_cons t ts
  refine ⟨specStackMinSize t ts,
    ⟨max (ts.foldl (fun acc w => maxCombine acc w.max_size) t.max_size).w
        (specStackMinSize t ts).w,
      max (ts.foldl (fun acc w => maxCombine acc w.max_size) t.max_size).h
        (specStackMinSize t ts).h⟩,
    ?_, ?_, le_max_right _ _, le_max_right _ _⟩
  · simpa [CosmicMapped.min_size, CosmicMapped.ofStack, CosmicStack.windows] using hmn
  · simp [CosmicMapped.max_size, CosmicMapped.ofStack, CosmicStack.windows,
      CosmicMapped.min_size, hmn, htm]

/-- Witness for C1: the theorem applied to the two-tab stack of Example A. -/
theorem c1_stack_max_ge_min_witness :
    exStackAB.tabs = exTabA :: [exTabB]
      ∧ ∃ mn mx : Size,
          (CosmicMapped.ofStack exStackAB).min_size = some mn
            ∧ (CosmicMapped.ofStack exStackAB).max_size = some mx
            ∧ mn.w ≤ mx.w ∧ mn.h ≤ mx.h :=
  ⟨rfl, c1_stack_max_ge_min exStackAB exTabA [exTabB] rfl⟩

/-- Claim C3: for a non-empty Stack, `min_size()` is exactly the
component-wise-maximum fold of every tab's declared minimum size; for a
Single, it is exactly the sole window's declared minimum. -/
theorem c3_min_size_fold (s : CosmicStack) (t : Toplevel) (ts : List Toplevel)
    (h : s.tabs = t :: ts) (cw : CosmicWindow) :
    (CosmicMapped.ofStack s).min_size = some (specStackMinSize t ts)
      ∧ (CosmicMapped.ofWindow cw).min_size = some cw.window.min_size := by
  constructor
  · have hmn : stackMinFold s.tabs = some (specStackMinSize t ts) := by
      rw [h]; exact stackMinFold_cons t ts
    simpa [CosmicMapped.min_size, CosmicMapped.ofStack, CosmicStack.windows] using hmn
  · rfl

/-- Witness for C3: the theorem applied to the two-tab stack of Example A and
a plain single window. -/
theorem c3_min_size_fold_witness :
    exStackAB.tabs = exTabA :: [exTabB]
      ∧ ((CosmicMapped.ofStack exStackAB).min_size = some (specStackMinSize exTabA [exTabB])
          ∧ (CosmicMapped.ofWindow exWindow).min_size = some exWindow.window.min_size) :=
  ⟨rfl, c3_min_size_fold exStackAB exTabA [exTabB] rfl exWindow⟩

/-- Claim C4: Example A — the stack with tabs A {min (100,50), max (0,0)} and
B {min (150,40), max (300,300)} has `min_size()` (150,50); the
`theoretical_max` fold excludes A's zero axes and yields (300,300); the
per-axis clamp up to `min_size()` leaves it at (300,300), which `max_size()`
returns. -/
theorem c4_example_a :
    (CosmicMapped.ofStack exStackAB).min_size = some ⟨150, 50⟩
      ∧ stackMaxFold exStackAB.tabs = some ⟨300, 300⟩
      ∧ (CosmicMapped.ofStack exStackAB).max_size = some ⟨300, 300⟩ := by
  decide

/-- Claim C5: for every Single window, `max_size()` returns the sole window's
declared maximum verbatim — in particular a declared maximum of (0,0) is
returned unmodified, with no zero-normalization and no clamping against
`min_size()` (the instance declares min (120,80)). -/
theorem c5_single_max_verbatim (cw : CosmicWindow) :
    (CosmicMapped.ofWindow cw).max_size = some cw.window.max_size
      ∧ (CosmicMapped.ofWindow exZeroMaxWindow).max_size = some ⟨0, 0⟩ :=
  ⟨rfl, by decide⟩

/-- Claim C2: for each X in {resizing, fullscreen, maximized, activated},
`set_X(b)` sets (if b) or clears (if not b) flag X in the pending
configuration of every constituent Toplevel; `is_X()` returns true exactly
when the current or the pending configuration of the active window contains
X; and `set_X(true)` immediately followed by `is_X()` returns true before
any client acknowledgement. -/
theorem c2_shared_state_sync (m : CosmicMapped) (b : Bool)
    (h : m.active_window.isSome = true) :
    ((m.set_resizing b).windows.map (fun p => p.1.pending.resizing)
          = m.windows.map (fun _ => b)
        ∧ m.is_resizing
          = m.active_window.map (fun w => w.current.resizing || w.pending.resizing)
        ∧ (m.set_resizing true).is_resizing = some true)
      ∧ ((m.set_fullscreen b).windows.map (fun p => p.1.pending.fullscreen)
          = m.windows.map (fun _ => b)
        ∧ m.is_fullscreen
          = m.active_window.map (fun w => w.current.fullscreen || w.pending.fullscreen)
        ∧ (m.set_fullscreen true).is_fullscreen = some true)
      ∧ ((m.set_maximized b).windows.map (fun p => p.1.pending.maximized)
          = m.windows.map (fun _ => b)
        ∧ m.is_maximized
          = m.active_window.map (fun w => w.current.maximized || w.pending.maximized)
        ∧ (m.set_maximized true).is_maximized = some true)
      ∧ ((m.set_activated b).windows.map (fun p => p.1.pending.activated)
          = m.windows.map (fun _ => b)
        ∧ m.is_activated
          = m.active_window.map (fun w => w.current.activated || w.pending.activated)
        ∧ (m.set_activated true).is_activated = some true) := by
  refine ⟨⟨?_, rfl, ?_⟩, ⟨?_, rfl, ?_⟩, ⟨?_, rfl, ?_⟩, ⟨?_, rfl, ?_⟩⟩
  · exact windows_flag_of_map m
      (fun t => { t with pending :=
        if b then { t.pending with resizing := true }
        else { t.pending with resizing := false } })
      (fun t => t.pending.resizing) b (fun t => by cases b <;> rfl)
  · exact active_obs_of_map m
      (fun t => { t with pending :=
        if true then { t.pending with resizing := true }
        else { t.pending with resizing := false } })
      (fun w => w.current.resizing || w.pending.resizing) (fun t => by simp) h
  · exact windows_flag_of_map m
      (fun t => { t with pending :=
        if b then { t.pending with fullscreen := true }
        else { t.pending with fullscreen := false } })
      (fun t => t.pending.fullscreen) b (fun t => by cases b <;> rfl)
  · exact active_obs_of_map m
      (fun t => { t with pending :=
        if true then { t.pending with fullscreen := true }
        else { t.pending with fullscreen := false } })
      (fun w => w.current.fullscreen || w.pending.fullscreen) (fun t => by simp) h
  · exact windows_flag_of_map m
      (fun t => { t with pending :=
        if b then { t.pending with maximized := true }
        else { t.pending with maximized := false } })
      (fun t => t.pending.maximized) b (fun t => by cases b <;> rfl)
  · exact active_obs_of_map m
      (fun t => { t with pending :=
        if true then { t.pending with maximized := true }
        else { t.pending with maximized := false } })
      (fun w => w.current.maximized || w.pending.maximized) (fun t => by simp) h
  · exact windows_flag_of_map m
      (fun t => { t with pending :=
        if b then { t.pending with activated := true }
        else { t.pending with activated := false } })
      (fun t => t.pending.activated) b (fun t => by cases b <;> rfl)
  · exact active_obs_of_map m
      (fun t => { t with pending :=
        if true then { t.pending with activated := true }
        else { t.pending with activated := false } })
      (fun w => w.current.activated || w.pending.activated) (fun t => by simp) h

/-- Witness for C2: on the three-tab stack, `set_resizing(true)` followed by
`is_resizing()` reports true. -/
theorem c2_shared_state_sync_witness :
    (CosmicMapped.ofStack exStack3).active_window.isSome = true
      ∧ ((CosmicMapped.ofStack exStack3).set_resizing true).is_resizing = some true :=
  ⟨by decide,
    (c2_shared_state_sync (CosmicMapped.ofStack exStack3) true (by decide)).1.2.2⟩

/-- Claim C6: `send_close()` issues the protocol close request on the active
window only — the Stack's active tab or the Single's sole window — leaving
the mapped window itself untouched, so every tab (non-active ones included)
is still enumerated by `windows()` afterwards. -/
theorem c6_send_close_active_only (s : CosmicStack) (t : Toplevel)
    (h : s.active = some t) :
    (CosmicMapped.ofStack s).send_close = some (t, CosmicMapped.ofStack s)
      ∧ ((CosmicMapped.ofStack s).windows).map Prod.fst = s.tabs
      ∧ ∀ cw : CosmicWindow,
          (CosmicMapped.ofWindow cw).send_close
            = some (cw.window, CosmicMapped.ofWindow cw) := by
  refine ⟨?_, ?_, fun cw => rfl⟩
  · simp [CosmicMapped.send_close, CosmicMapped.active_window, CosmicMapped.ofStack, h]
  · show (s.tabs.map (fun w => (w, headerOffset s.header))).map Prod.fst = s.tabs
    rw [List.map_map]
    exact List.map_id s.tabs

/-- Witness for C6: Example C — closing the three-tab stack requests closing
only the active (second) tab and all three tabs stay enumerable. -/
theorem c6_send_close_witness :
    exStack3.active = some exTab2
      ∧ (CosmicMapped.ofStack exStack3).send_close
          = some (exTab2, CosmicMapped.ofStack exStack3)
      ∧ ((CosmicMapped.ofStack exStack3).windows).map Prod.fst = exStack3.tabs :=
  ⟨by decide, (c6_send_close_active_only exStack3 exTab2 (by decide)).1,
    (c6_send_close_active_only exStack3 exTab2 (by decide)).2.1⟩

/-- Claim C7: over any sequence of pointer events delivered to a window whose
cursor map starts empty, `cursor_position(S)` is exactly the location of the
last enter/motion of seat S not yet followed by a leave of S (and none
otherwise); events of a different seat never change S's entry; button/axis
events leave the whole map untouched. -/
theorem c7_cursor_tracking (m : CosmicMapped) (events : List PointerEvent) (S : Nat)
    (h : m.last_cursor_position = CursorMap.empty) :
    (m.pointerRun events).cursor_position S = trackedPosition S events
      ∧ (∀ e : PointerEvent, e.seat ≠ S →
          (m.pointerStep e).cursor_position S = m.cursor_position S)
      ∧ (∀ s : Nat,
          (m.pointerStep (PointerEvent.button s)).last_cursor_position
              = m.last_cursor_position
            ∧ (m.pointerStep (PointerEvent.axis s)).last_cursor_position
              = m.last_cursor_position) := by
  refine ⟨?_, ?_, fun s => ⟨rfl, rfl⟩⟩
  · rw [pointerRun_tracked]
    have hinit : m.cursor_position S = Option.none := by
      rw [CosmicMapped.cursor_position, h]; rfl
    rw [hinit]; rfl
  · intro e he
    rw [pointerStep_cursor]
    cases e with
    | enter s location => simp only [PointerEvent.seat] at he; simp [he]
    | motion s location => simp only [PointerEvent.seat] at he; simp [he]
    | button s => rfl
    | axis s => rfl
    | leave s => simp only [PointerEvent.seat] at he; simp [he]

/-- Witness for C7: the event script on a fresh single window, observed at
seat 1. -/
theorem c7_cursor_tracking_witness :
    (CosmicMapped.ofWindow exWindow).last_cursor_position = CursorMap.empty
      ∧ ((CosmicMapped.ofWindow exWindow).pointerRun exEvents).cursor_position 1
          = trackedPosition 1 exEvents :=
  ⟨rfl, (c7_cursor_tracking (CosmicMapped.ofWindow exWindow) exEvents 1 rfl).1⟩

/-- Claim C8: `set_tiled(b)` on a Single sets (or clears) all four pending
tiled flags of its sole Toplevel while leaving its current configuration
untouched; on a Stack it is a no-op that changes nothing at all. -/
theorem c8_set_tiled_single_only (cw : CosmicWindow) (s : CosmicStack) (b : Bool) :
    ((CosmicMapped.ofWindow cw).set_tiled b).windows.map
        (fun p => (p.1.pending.tiledLeft, p.1.pending.tiledRight,
          p.1.pending.tiledTop, p.1.pending.tiledBottom))
        = [(b, b, b, b)]
      ∧ ((CosmicMapped.ofWindow cw).set_tiled b).windows.map (fun p => p.1.current)
        = [cw.window.current]
      ∧ (CosmicMapped.ofStack s).set_tiled b = CosmicMapped.ofStack s := by
  refine ⟨?_, ?_, rfl⟩ <;> cases b <;> rfl

/-- Claim C9, counterexample: with a kind that includes both top-level and
subsurface, `has_surface` answers true for a subsurface (id 2) of the sole
window even though no constituent's top-level surface equals it, refuting
the claimed biconditional for every kind that includes top-level. -/
theorem c9_counterexample :
    (CosmicMapped.ofWindow exSubWin).has_surface 2 ⟨true, true, false⟩ = true
      ∧ (2 ∉ ((CosmicMapped.ofWindow exSubWin).windows).map (fun p => p.1.surface)) := by
  decide

/-- Claim C9 (amended): with kind exactly top-level, `has_surface` returns
true iff some constituent window's top-level surface equals the queried
surface; for any kind including top-level it returns true whenever some
constituent's top-level surface matches (so for every tab of a Stack); and
for a surface belonging to no constituent — matching no top-level surface,
no surface subtree and no popup — it returns false for every kind. -/
theorem c9_has_surface_toplevel (m : CosmicMapped) (surf : Nat) (k : WindowSurfaceType) :
    (m.has_surface surf ⟨true, false, false⟩ = true
        ↔ ∃ p ∈ m.windows, p.1.surface = surf)
      ∧ (k.toplevel = true → (∃ p ∈ m.windows, p.1.surface = surf) →
          m.has_surface surf k = true)
      ∧ ((∀ p ∈ m.windows,
            p.1.surface ≠ surf ∧ surf ∉ p.1.surfaceTree ∧ surf ∉ p.1.popups) →
          m.has_surface surf k = false) := by
  refine ⟨?_, ?_, ?_⟩
  · simp [CosmicMapped.has_surface, List.any_eq_true]
  · intro hk hex
    obtain ⟨p, hp, hs⟩ := hex
    rw [CosmicMapped.has_surface, List.any_eq_true]
    exact ⟨p, hp, by simp [hk, hs]⟩
  · intro hall
    rw [CosmicMapped.has_surface]
    rw [List.any_eq_false]
    intro p hp
    obtain ⟨h1, h2, h3⟩ := hall p hp
    simp [h1, h2, h3]

/-- Witness for C9: on the three-tab stack, the top-level surface of the
second tab is found with kind = top-level. -/
theorem c9_has_surface_witness :
    (CosmicMapped.ofStack exStack3).has_surface 22
        (WindowSurfaceType.mk true false false) = true :=
  (c9_has_surface_toplevel (CosmicMapped.ofStack exStack3) 22
      (WindowSurfaceType.mk true false false)).2.1 rfl
    ⟨(exTab2, headerOffset exStack3.header), by decide, rfl⟩

/-- Claim C10: `is_tiled()` reads only the current configuration of the
active window and tests only the tiled-left flag; hence `set_tiled(true)` on
a Single followed by `is_tiled()` still reports false while the current
configuration lacks tiled-left (no pending-state visibility), and on a Stack
`is_tiled()` reports the active tab's current tiled-left flag rather than
being a no-op. -/
theorem c10_is_tiled_current_only (m : CosmicMapped) (cw : CosmicWindow)
    (s : CosmicStack) (t : Toplevel)
    (hc : cw.window.current.tiledLeft = false) (hs : s.active = some t) :
    m.is_tiled = m.active_window.map (fun w => w.current.tiledLeft)
      ∧ ((CosmicMapped.ofWindow cw).set_tiled true).is_tiled = some false
      ∧ (CosmicMapped.ofStack s).is_tiled = some t.current.tiledLeft := by
  refine ⟨rfl, ?_, ?_⟩
  · simp [CosmicMapped.is_tiled, CosmicMapped.set_tiled, CosmicMapped.ofWindow,
      CosmicMapped.active_window, hc]
  · simp [CosmicMapped.is_tiled, CosmicMapped.active_window, CosmicMapped.ofStack, hs]

/-- Witness for C10: on a plain single window with tiled-left absent from the
current configuration, `set_tiled(true)` then `is_tiled()` reports false. -/
theorem c10_is_tiled_witness :
    exWindow.window.current.tiledLeft = false
      ∧ exStack3.active = some exTab2
      ∧ ((CosmicMapped.ofWindow exWindow).set_tiled true).is_tiled = some false :=
  ⟨rfl, by decide,
    (c10_is_tiled_current_only (CosmicMapped.ofWindow exWindow) exWindow exStack3 exTab2
        rfl (by decide)).2.1⟩

end CosmicComp
